import Mathlib

/-
Verification of the `DataInfo` component of sniffnet
(src/networking/types/data_info.rs).

The struct holds four `u128` counters (incoming/outgoing packets and
bytes) together with the `Instant` of the latest occurrence.  The
embedding keeps counters as natural numbers and models `u128` addition
by reduction modulo 2 ^ 128 (the wrapping behaviour of Rust's `+=` on
`u128` when overflow checks are off); instants are modelled as natural
clock ticks, since `std::time::Instant` is an opaque totally ordered
monotonic timestamp.  Functions taking an implicit reading of the clock
(`Instant::now()`) receive it as an explicit `now` argument.
-/

namespace Sniffnet

/-- The modulus of the `u128` machine-integer type of the four counters. -/
def U128_MOD : Nat := 2 ^ 128

/-- `u128` addition as performed by `+=` in the source: the sum reduced
modulo `2 ^ 128` (wrap-around semantics). -/
def u128add (a b : Nat) : Nat := (a + b) % U128_MOD

/-- Rust's `Ord::cmp` on natural numbers, returning an `Ordering`. -/
def cmpNat (a b : Nat) : Ordering :=
  if a < b then Ordering.lt else if a = b then Ordering.eq else Ordering.gt

/-- `TrafficDirection` from traffic_direction.rs: a closed enumeration. -/
inductive TrafficDirection : Type
  | Incoming : TrafficDirection
  | Outgoing : TrafficDirection
deriving DecidableEq

/-- `ChartType` from chart_type.rs: a closed enumeration. -/
inductive ChartType : Type
  | Packets : ChartType
  | Bytes : ChartType
deriving DecidableEq

/-- `SortType` from sort_type.rs: a closed enumeration. -/
inductive SortType : Type
  | Ascending : SortType
  | Descending : SortType
  | Neutral : SortType
deriving DecidableEq

/-- The `DataInfo` struct: four `u128` counters and the latest instant. -/
structure DataInfo : Type where
  incoming_packets : Nat
  outgoing_packets : Nat
  incoming_bytes : Nat
  outgoing_bytes : Nat
  final_instant : Nat
deriving DecidableEq

namespace DataInfo

/-- `DataInfo::tot_packets`: `self.incoming_packets + self.outgoing_packets`
(a `u128` addition). -/
def tot_packets (d : DataInfo) : Nat :=
  u128add d.incoming_packets d.outgoing_packets

/-- `DataInfo::tot_bytes`: `self.incoming_bytes + self.outgoing_bytes`
(a `u128` addition). -/
def tot_bytes (d : DataInfo) : Nat :=
  u128add d.incoming_bytes d.outgoing_bytes

/-- `DataInfo::tot_data`: total packets or total bytes per chart type. -/
def tot_data (d : DataInfo) (chart_type : ChartType) : Nat :=
  match chart_type with
  | ChartType.Packets => d.tot_packets
  | ChartType.Bytes => d.tot_bytes

/-- `DataInfo::add_packet`: one packet of `bytes` bytes on the side given
by `traffic_direction`; `final_instant` becomes `Instant::now()`, passed
here as `now`. -/
def add_packet (d : DataInfo) (bytes : Nat)
    (traffic_direction : TrafficDirection) (now : Nat) : DataInfo :=
  if traffic_direction = TrafficDirection.Outgoing then
    { d with
        outgoing_packets := u128add d.outgoing_packets 1,
        outgoing_bytes := u128add d.outgoing_bytes bytes,
        final_instant := now }
  else
    { d with
        incoming_packets := u128add d.incoming_packets 1,
        incoming_bytes := u128add d.incoming_bytes bytes,
        final_instant := now }

/-- `DataInfo::add_packets`: a batch of `packets` packets and `bytes`
bytes on the side given by `traffic_direction`; `final_instant` is not
touched. -/
def add_packets (d : DataInfo) (packets bytes : Nat)
    (traffic_direction : TrafficDirection) : DataInfo :=
  if traffic_direction = TrafficDirection.Outgoing then
    { d with
        outgoing_packets := u128add d.outgoing_packets packets,
        outgoing_bytes := u128add d.outgoing_bytes bytes }
  else
    { d with
        incoming_packets := u128add d.incoming_packets packets,
        incoming_bytes := u128add d.incoming_bytes bytes }

/-- `DataInfo::new_with_first_packet`: a fresh record holding one packet
of `bytes` bytes on the given side, timestamped `Instant::now()` = `now`. -/
def new_with_first_packet (bytes : Nat)
    (traffic_direction : TrafficDirection) (now : Nat) : DataInfo :=
  if traffic_direction = TrafficDirection.Outgoing then
    { incoming_packets := 0
      outgoing_packets := 1
      incoming_bytes := 0
      outgoing_bytes := bytes
      final_instant := now }
  else
    { incoming_packets := 1
      outgoing_packets := 0
      incoming_bytes := bytes
      outgoing_bytes := 0
      final_instant := now }

/-- `DataInfo::refresh`: field-wise `u128` sums of the four counters and
last-writer-wins on `final_instant`. -/
def refresh (d rhs : DataInfo) : DataInfo :=
  { incoming_packets := u128add d.incoming_packets rhs.incoming_packets
    outgoing_packets := u128add d.outgoing_packets rhs.outgoing_packets
    incoming_bytes := u128add d.incoming_bytes rhs.incoming_bytes
    outgoing_bytes := u128add d.outgoing_bytes rhs.outgoing_bytes
    final_instant := rhs.final_instant }

/-- `DataInfo::compare`: order two records by the magnitude selected by
`chart_type`, direction given by `sort_type`; `Neutral` orders by
`final_instant` with operands swapped. -/
def compare (d other : DataInfo) (sort_type : SortType)
    (chart_type : ChartType) : Ordering :=
  match chart_type with
  | ChartType.Packets =>
    match sort_type with
    | SortType.Ascending => cmpNat d.tot_packets other.tot_packets
    | SortType.Descending => cmpNat other.tot_packets d.tot_packets
    | SortType.Neutral => cmpNat other.final_instant d.final_instant
  | ChartType.Bytes =>
    match sort_type with
    | SortType.Ascending => cmpNat d.tot_bytes other.tot_bytes
    | SortType.Descending => cmpNat other.tot_bytes d.tot_bytes
    | SortType.Neutral => cmpNat other.final_instant d.final_instant

/-- `Default for DataInfo`: all counters zero, timestamped now. -/
def mkDefault (now : Nat) : DataInfo :=
  { incoming_packets := 0
    outgoing_packets := 0
    incoming_bytes := 0
    outgoing_bytes := 0
    final_instant := now }

/-- A record is within `u128` range when each counter is below `2 ^ 128`;
every value of the Rust struct satisfies this by typing. -/
def valid (d : DataInfo) : Prop :=
  d.incoming_packets < U128_MOD ∧ d.outgoing_packets < U128_MOD ∧
    d.incoming_bytes < U128_MOD ∧ d.outgoing_bytes < U128_MOD

end DataInfo

/-- One call in a sequence of counter updates: either `add_packet` with a
byte size, a direction and a clock reading, or `add_packets` with a batch
of packets and bytes and a direction. -/
inductive TrafficOp : Type
  | single : Nat → TrafficDirection → Nat → TrafficOp
  | batch : Nat → Nat → TrafficDirection → TrafficOp

/-- Apply one update to a record. -/
def applyOp (d : DataInfo) : TrafficOp → DataInfo
  | TrafficOp.single bytes dir now => d.add_packet bytes dir now
  | TrafficOp.batch packets bytes dir => d.add_packets packets bytes dir

/-- Apply a sequence of updates, left to right. -/
def applyOps (d : DataInfo) (ops : List TrafficOp) : DataInfo :=
  ops.foldl applyOp d

/-- Packet increment carried by one update. -/
def opPackets : TrafficOp → Nat
  | TrafficOp.single _ _ _ => 1
  | TrafficOp.batch packets _ _ => packets

/-- Byte increment carried by one update. -/
def opBytes : TrafficOp → Nat
  | TrafficOp.single bytes _ _ => bytes
  | TrafficOp.batch _ bytes _ => bytes

/-- Total packet increment of a sequence of updates. -/
def opsPackets (ops : List TrafficOp) : Nat :=
  (ops.map opPackets).sum

/-- Total byte increment of a sequence of updates. -/
def opsBytes (ops : List TrafficOp) : Nat :=
  (ops.map opBytes).sum

/- ### Helper lemmas -/

lemma U128_MOD_pos : 0 < U128_MOD := by
  unfold U128_MOD
  positivity

lemma u128add_exact (a b : Nat) (h : a + b < U128_MOD) :
    u128add a b = a + b :=
  Nat.mod_eq_of_lt h

lemma u128add_lt (a b : Nat) : u128add a b < U128_MOD :=
  Nat.mod_lt _ U128_MOD_pos

lemma cmpNat_self (a : Nat) : cmpNat a a = Ordering.eq := by
  simp [cmpNat]

lemma cmpNat_eq_lt (a b : Nat) : cmpNat a b = Ordering.lt ↔ a < b := by
  unfold cmpNat
  split_ifs <;> simp <;> omega

lemma cmpNat_eq_eq (a b : Nat) : cmpNat a b = Ordering.eq ↔ a = b := by
  unfold cmpNat
  split_ifs <;> simp <;> omega

lemma cmpNat_eq_gt (a b : Nat) : cmpNat a b = Ordering.gt ↔ b < a := by
  unfold cmpNat
  split_ifs <;> simp <;> omega

lemma cmpNat_swap (a b : Nat) : cmpNat b a = (cmpNat a b).swap := by
  rcases Nat.lt_trichotomy a b with h | h | h
  · rw [(cmpNat_eq_lt a b).mpr h, (cmpNat_eq_gt b a).mpr h]
    rfl
  · rw [(cmpNat_eq_eq a b).mpr h, (cmpNat_eq_eq b a).mpr h.symm]
    rfl
  · rw [(cmpNat_eq_gt a b).mpr h, (cmpNat_eq_lt b a).mpr h]
    rfl

/-- Dispatch form of `compare`: each of the six sort/chart combinations is
a `cmpNat` of the selected keys. -/
lemma compare_eq (a b : DataInfo) (o : SortType) (c : ChartType) :
    DataInfo.compare a b o c =
      match o with
      | SortType.Ascending => cmpNat (a.tot_data c) (b.tot_data c)
      | SortType.Descending => cmpNat (b.tot_data c) (a.tot_data c)
      | SortType.Neutral => cmpNat b.final_instant a.final_instant := by
  cases o <;> cases c <;> rfl

lemma add_packet_incoming (d : DataInfo) (bytes now : Nat) :
    d.add_packet bytes TrafficDirection.Incoming now =
      { d with
          incoming_packets := u128add d.incoming_packets 1,
          incoming_bytes := u128add d.incoming_bytes bytes,
          final_instant := now } := rfl

lemma add_packet_outgoing (d : DataInfo) (bytes now : Nat) :
    d.add_packet bytes TrafficDirection.Outgoing now =
      { d with
          outgoing_packets := u128add d.outgoing_packets 1,
          outgoing_bytes := u128add d.outgoing_bytes bytes,
          final_instant := now } := rfl

lemma add_packets_incoming (d : DataInfo) (packets bytes : Nat) :
    d.add_packets packets bytes TrafficDirection.Incoming =
      { d with
          incoming_packets := u128add d.incoming_packets packets,
          incoming_bytes := u128add d.incoming_bytes bytes } := rfl

lemma add_packets_outgoing (d : DataInfo) (packets bytes : Nat) :
    d.add_packets packets bytes TrafficDirection.Outgoing =
      { d with
          outgoing_packets := u128add d.outgoing_packets packets,
          outgoing_bytes := u128add d.outgoing_bytes bytes } := rfl

/-- One update changes the combined packet and byte counts by exactly the
increments it carries, provided the sums stay below `2 ^ 128`. -/
lemma applyOp_counters (d : DataInfo) (op : TrafficOp)
    (h1 : d.incoming_packets + d.outgoing_packets + opPackets op < U128_MOD)
    (h2 : d.incoming_bytes + d.outgoing_bytes + opBytes op < U128_MOD) :
    (applyOp d op).incoming_packets + (applyOp d op).outgoing_packets =
        d.incoming_packets + d.outgoing_packets + opPackets op ∧
    (applyOp d op).incoming_bytes + (applyOp d op).outgoing_bytes =
        d.incoming_bytes + d.outgoing_bytes + opBytes op := by
  cases op with
  | single bytes dir now =>
    simp only [opPackets, opBytes] at h1 h2 ⊢
    cases dir
    · simp only [applyOp, add_packet_incoming]
      rw [u128add_exact _ _ (by omega), u128add_exact _ _ (by omega)]
      omega
    · simp only [applyOp, add_packet_outgoing]
      rw [u128add_exact _ _ (by omega), u128add_exact _ _ (by omega)]
      omega
  | batch packets bytes dir =>
    simp only [opPackets, opBytes] at h1 h2 ⊢
    cases dir
    · simp only [applyOp, add_packets_incoming]
      rw [u128add_exact _ _ (by omega), u128add_exact _ _ (by omega)]
      omega
    · simp only [applyOp, add_packets_outgoing]
      rw [u128add_exact _ _ (by omega), u128add_exact _ _ (by omega)]
      omega

/-- Over a whole sequence of updates, the combined packet and byte counts
grow by exactly the total increments, provided the totals stay below
`2 ^ 128`. -/
lemma applyOps_counters (ops : List TrafficOp) :
    ∀ d : DataInfo,
      d.incoming_packets + d.outgoing_packets + opsPackets ops < U128_MOD →
      d.incoming_bytes + d.outgoing_bytes + opsBytes ops < U128_MOD →
      (applyOps d ops).incoming_packets + (applyOps d ops).outgoing_packets =
          d.incoming_packets + d.outgoing_packets + opsPackets ops ∧
      (applyOps d ops).incoming_bytes + (applyOps d ops).outgoing_bytes =
          d.incoming_bytes + d.outgoing_bytes + opsBytes ops := by
  induction ops with
  | nil =>
    intro d h1 h2
    simp [applyOps, opsPackets, opsBytes]
  | cons op rest ih =>
    intro d h1 h2
    have hops : opsPackets (op :: rest) = opPackets op + opsPackets rest := by
      simp [opsPackets]
    have hopb : opsBytes (op :: rest) = opBytes op + opsBytes rest := by
      simp [opsBytes]
    rw [hops] at h1
    rw [hopb] at h2
    have hstep := applyOp_counters d op (by omega) (by omega)
    have hrest := ih (applyOp d op) (by omega) (by omega)
    have hfold : applyOps d (op :: rest) = applyOps (applyOp d op) rest := rfl
    rw [hfold, hops, hopb]
    omega

/- ### Claim C1 -/

/-- C1 counterexample: `refresh` performs `u128` additions, so at an
extreme input (incoming packet counter at `2 ^ 128 - 1` merged with a
record holding one incoming packet) the resulting counter wraps to `0`
and is not the field-wise mathematical sum the claim states for every
pair of records. -/
theorem C1_counterexample :
    (DataInfo.refresh
        { incoming_packets := U128_MOD - 1, outgoing_packets := 0,
          incoming_bytes := 0, outgoing_bytes := 0, final_instant := 0 }
        { incoming_packets := 1, outgoing_packets := 0, incoming_bytes := 0,
          outgoing_bytes := 0, final_instant := 5 }).incoming_packets ≠
      (U128_MOD - 1) + 1 := by
  decide

/-- C1 (amended): provided each field-wise sum stays below `2 ^ 128`,
`refresh` sets each of the four counters to the field-wise sum and sets
`final_instant` to exactly `other.final_instant` (unconditionally, even
when earlier); merging `a` then `b` into a zeroed accumulator yields the
field-wise sums with the accumulator's `final_instant` equal to `b`'s. -/
theorem C1_refresh_spec (a b : DataInfo)
    (h1 : a.incoming_packets + b.incoming_packets < U128_MOD)
    (h2 : a.outgoing_packets + b.outgoing_packets < U128_MOD)
    (h3 : a.incoming_bytes + b.incoming_bytes < U128_MOD)
    (h4 : a.outgoing_bytes + b.outgoing_bytes < U128_MOD) :
    ((a.refresh b).incoming_packets = a.incoming_packets + b.incoming_packets ∧
     (a.refresh b).outgoing_packets = a.outgoing_packets + b.outgoing_packets ∧
     (a.refresh b).incoming_bytes = a.incoming_bytes + b.incoming_bytes ∧
     (a.refresh b).outgoing_bytes = a.outgoing_bytes + b.outgoing_bytes ∧
     (a.refresh b).final_instant = b.final_instant) ∧
    ∀ t0 : Nat,
      (((DataInfo.mkDefault t0).refresh a).refresh b).incoming_packets =
          a.incoming_packets + b.incoming_packets ∧
      (((DataInfo.mkDefault t0).refresh a).refresh b).outgoing_packets =
          a.outgoing_packets + b.outgoing_packets ∧
      (((DataInfo.mkDefault t0).refresh a).refresh b).incoming_bytes =
          a.incoming_bytes + b.incoming_bytes ∧
      (((DataInfo.mkDefault t0).refresh a).refresh b).outgoing_bytes =
          a.outgoing_bytes + b.outgoing_bytes ∧
      (((DataInfo.mkDefault t0).refresh a).refresh b).final_instant =
          b.final_instant := by
  constructor
  · simp only [DataInfo.refresh]
    exact ⟨u128add_exact _ _ h1, u128add_exact _ _ h2, u128add_exact _ _ h3,
      u128add_exact _ _ h4, trivial⟩
  · intro t0
    simp only [DataInfo.refresh, DataInfo.mkDefault]
    rw [u128add_exact 0 a.incoming_packets (by omega), Nat.zero_add,
      u128add_exact 0 a.outgoing_packets (by omega), Nat.zero_add,
      u128add_exact 0 a.incoming_bytes (by omega), Nat.zero_add,
      u128add_exact 0 a.outgoing_bytes (by omega), Nat.zero_add]
    exact ⟨u128add_exact _ _ h1, u128add_exact _ _ h2, u128add_exact _ _ h3,
      u128add_exact _ _ h4, trivial⟩

/-- C1 witness: the amended statement evaluated at two small records. -/
theorem C1_refresh_spec_witness :
    ((⟨1, 2, 3, 4, 7⟩ : DataInfo).refresh ⟨10, 20, 30, 40, 9⟩).incoming_packets = 11 ∧
    ((⟨1, 2, 3, 4, 7⟩ : DataInfo).refresh ⟨10, 20, 30, 40, 9⟩).final_instant = 9 := by
  have h := C1_refresh_spec ⟨1, 2, 3, 4, 7⟩ ⟨10, 20, 30, 40, 9⟩
    (by decide) (by decide) (by decide) (by decide)
  exact ⟨h.1.1, h.1.2.2.2.2⟩

/- ### Claim C2 -/

set_option maxRecDepth 4000 in
/-- C2: `add_packet` always sets `final_instant` to the current instant
(which, the clock being monotone, is at least the previous value), while
`add_packets` leaves `final_instant` exactly unchanged; a default record
followed by `add_packets 10 2000 Incoming` holds 10 incoming packets and
2000 incoming bytes with `final_instant` still its construction time. -/
theorem C2_final_instant_updates (r : DataInfo) (bytes packets bytes2 : Nat)
    (dir dir2 : TrafficDirection) (now : Nat)
    (hclock : r.final_instant ≤ now) :
    ((r.add_packet bytes dir now).final_instant = now ∧
     r.final_instant ≤ (r.add_packet bytes dir now).final_instant) ∧
    (r.add_packets packets bytes2 dir2).final_instant = r.final_instant ∧
    ∀ t0 : Nat,
      ((DataInfo.mkDefault t0).add_packets 10 2000
          TrafficDirection.Incoming).incoming_packets = 10 ∧
      ((DataInfo.mkDefault t0).add_packets 10 2000
          TrafficDirection.Incoming).incoming_bytes = 2000 ∧
      ((DataInfo.mkDefault t0).add_packets 10 2000
          TrafficDirection.Incoming).final_instant = t0 := by
  refine ⟨?_, ?_, ?_⟩
  · cases dir <;> exact ⟨rfl, hclock⟩
  · cases dir2 <;> rfl
  · intro t0
    exact ⟨rfl, rfl, rfl⟩

/-- C2 witness: evaluated at a default record stamped 3, with clock at 4. -/
theorem C2_final_instant_updates_witness :
    ((DataInfo.mkDefault 3).add_packet 5 TrafficDirection.Incoming 4).final_instant = 4 ∧
    ((DataInfo.mkDefault 0).add_packets 10 2000
        TrafficDirection.Incoming).incoming_packets = 10 := by
  have h := C2_final_instant_updates (DataInfo.mkDefault 3) 5 7 9
    TrafficDirection.Incoming TrafficDirection.Outgoing 4 (by decide)
  exact ⟨h.1.1, (h.2.2 0).1⟩

/- ### Claim C3 -/

/-- C3: `compare` selects the magnitude per chart kind; `Ascending` is the
standard comparison of the selected magnitudes, `Descending` compares them
with operands swapped, and `Neutral` ignores magnitude and compares
`final_instant` with operands swapped.  For A (total bytes 150, instant
10) versus B (total bytes 2000, instant 3): under Descending/Bytes, B
sorts before A (`compare A B` is `gt`, `compare B A` is `lt`), and under
Neutral/Bytes, A sorts before B (`compare A B` is `lt`). -/
theorem C3_compare_direction_semantics :
    (∀ (a b : DataInfo) (c : ChartType),
        DataInfo.compare a b SortType.Ascending c =
          cmpNat (a.tot_data c) (b.tot_data c) ∧
        DataInfo.compare a b SortType.Descending c =
          cmpNat (b.tot_data c) (a.tot_data c) ∧
        DataInfo.compare a b SortType.Neutral c =
          cmpNat b.final_instant a.final_instant) ∧
    DataInfo.compare ⟨0, 0, 100, 50, 10⟩ ⟨0, 0, 1500, 500, 3⟩
        SortType.Descending ChartType.Bytes = Ordering.gt ∧
    DataInfo.compare ⟨0, 0, 1500, 500, 3⟩ ⟨0, 0, 100, 50, 10⟩
        SortType.Descending ChartType.Bytes = Ordering.lt ∧
    DataInfo.compare ⟨0, 0, 100, 50, 10⟩ ⟨0, 0, 1500, 500, 3⟩
        SortType.Neutral ChartType.Bytes = Ordering.lt := by
  refine ⟨?_, by decide, by decide, by decide⟩
  intro a b c
  exact ⟨compare_eq a b SortType.Ascending c,
    compare_eq a b SortType.Descending c,
    compare_eq a b SortType.Neutral c⟩

/- ### Claim C4 -/

/-- C4: for every sort order and chart kind, `compare` is antisymmetric
(swapping the operands swaps the outcome, so the two calls are opposite
or both `eq`), its strict part is irreflexive (`compare a a` is `eq`),
and the induced ordering is transitive (both on the strict part and on
ties). -/
theorem C4_comparator_laws :
    (∀ (o : SortType) (c : ChartType) (a b : DataInfo),
        DataInfo.compare b a o c = (DataInfo.compare a b o c).swap) ∧
    (∀ (o : SortType) (c : ChartType) (a : DataInfo),
        DataInfo.compare a a o c = Ordering.eq) ∧
    (∀ (o : SortType) (c : ChartType) (a b d : DataInfo),
        DataInfo.compare a b o c = Ordering.lt →
        DataInfo.compare b d o c = Ordering.lt →
        DataInfo.compare a d o c = Ordering.lt) ∧
    (∀ (o : SortType) (c : ChartType) (a b d : DataInfo),
        DataInfo.compare a b o c = Ordering.eq →
        DataInfo.compare b d o c = Ordering.eq →
        DataInfo.compare a d o c = Ordering.eq) := by
  refine ⟨?_, ?_, ?_, ?_⟩
  · intro o c a b
    rw [compare_eq, compare_eq]
    cases o
    · exact cmpNat_swap _ _
    · exact cmpNat_swap _ _
    · exact cmpNat_swap _ _
  · intro o c a
    rw [compare_eq]
    cases o
    · exact cmpNat_self _
    · exact cmpNat_self _
    · exact cmpNat_self _
  · intro o c a b d h1 h2
    rw [compare_eq] at h1 h2 ⊢
    cases o
    · exact (cmpNat_eq_lt _ _).mpr
        (Nat.lt_trans ((cmpNat_eq_lt _ _).mp h1) ((cmpNat_eq_lt _ _).mp h2))
    · exact (cmpNat_eq_lt _ _).mpr
        (Nat.lt_trans ((cmpNat_eq_lt _ _).mp h2) ((cmpNat_eq_lt _ _).mp h1))
    · exact (cmpNat_eq_lt _ _).mpr
        (Nat.lt_trans ((cmpNat_eq_lt _ _).mp h2) ((cmpNat_eq_lt _ _).mp h1))
  · intro o c a b d h1 h2
    rw [compare_eq] at h1 h2 ⊢
    cases o
    · exact (cmpNat_eq_eq _ _).mpr
        (((cmpNat_eq_eq _ _).mp h1).trans ((cmpNat_eq_eq _ _).mp h2))
    · exact (cmpNat_eq_eq _ _).mpr
        (((cmpNat_eq_eq _ _).mp h2).trans ((cmpNat_eq_eq _ _).mp h1))
    · exact (cmpNat_eq_eq _ _).mpr
        (((cmpNat_eq_eq _ _).mp h2).trans ((cmpNat_eq_eq _ _).mp h1))

/-- C4 witness: transitivity of the strict part applied at three concrete
records with 1, 2 and 3 total packets. -/
theorem C4_comparator_laws_witness :
    DataInfo.compare ⟨1, 0, 2, 0, 0⟩ ⟨0, 3, 0, 4, 1⟩ SortType.Ascending
        ChartType.Packets = Ordering.lt :=
  C4_comparator_laws.2.2.1 SortType.Ascending ChartType.Packets
    ⟨1, 0, 2, 0, 0⟩ ⟨2, 0, 5, 0, 3⟩ ⟨0, 3, 0, 4, 1⟩ (by decide) (by decide)

/- ### Claim C5 -/

/-- C5 counterexample: with the incoming byte counter at `2 ^ 128 - 1`,
`add_packet 1 Incoming` wraps the counter to `0` instead of incrementing
it by exactly the byte size, so the counters are not exact sums on all
of the `u128` range. -/
theorem C5_counterexample :
    ((⟨0, 0, U128_MOD - 1, 0, 0⟩ : DataInfo).add_packet 1
        TrafficDirection.Incoming 7).incoming_bytes ≠ (U128_MOD - 1) + 1 := by
  decide

/-- C5 (amended): `add_packet` and `add_packets` leave the opposite
side's counters unchanged and, provided the incremented counter stays
below `2 ^ 128`, increment the chosen side by exactly 1 (or the batch
count) packets and exactly the byte size; consequently, any finite
sequence of such calls starting from a zeroed record yields totals equal
to the sums of the increments, provided those sums stay below `2 ^ 128`. -/
theorem C5_exact_counters :
    (∀ (r : DataInfo) (bytes now : Nat),
        (r.add_packet bytes TrafficDirection.Incoming now).outgoing_packets =
            r.outgoing_packets ∧
        (r.add_packet bytes TrafficDirection.Incoming now).outgoing_bytes =
            r.outgoing_bytes ∧
        (r.incoming_packets + 1 < U128_MOD →
          (r.add_packet bytes TrafficDirection.Incoming now).incoming_packets =
              r.incoming_packets + 1) ∧
        (r.incoming_bytes + bytes < U128_MOD →
          (r.add_packet bytes TrafficDirection.Incoming now).incoming_bytes =
              r.incoming_bytes + bytes)) ∧
    (∀ (r : DataInfo) (bytes now : Nat),
        (r.add_packet bytes TrafficDirection.Outgoing now).incoming_packets =
            r.incoming_packets ∧
        (r.add_packet bytes TrafficDirection.Outgoing now).incoming_bytes =
            r.incoming_bytes ∧
        (r.outgoing_packets + 1 < U128_MOD →
          (r.add_packet bytes TrafficDirection.Outgoing now).outgoing_packets =
              r.outgoing_packets + 1) ∧
        (r.outgoing_bytes + bytes < U128_MOD →
          (r.add_packet bytes TrafficDirection.Outgoing now).outgoing_bytes =
              r.outgoing_bytes + bytes)) ∧
    (∀ (r : DataInfo) (packets bytes : Nat),
        (r.add_packets packets bytes TrafficDirection.Incoming).outgoing_packets =
            r.outgoing_packets ∧
        (r.add_packets packets bytes TrafficDirection.Incoming).outgoing_bytes =
            r.outgoing_bytes ∧
        (r.incoming_packets + packets < U128_MOD →
          (r.add_packets packets bytes TrafficDirection.Incoming).incoming_packets =
              r.incoming_packets + packets) ∧
        (r.incoming_bytes + bytes < U128_MOD →
          (r.add_packets packets bytes TrafficDirection.Incoming).incoming_bytes =
              r.incoming_bytes + bytes)) ∧
    (∀ (r : DataInfo) (packets bytes : Nat),
        (r.add_packets packets bytes TrafficDirection.Outgoing).incoming_packets =
            r.incoming_packets ∧
        (r.add_packets packets bytes TrafficDirection.Outgoing).incoming_bytes =
            r.incoming_bytes ∧
        (r.outgoing_packets + packets < U128_MOD →
          (r.add_packets packets bytes TrafficDirection.Outgoing).outgoing_packets =
              r.outgoing_packets + packets) ∧
        (r.outgoing_bytes + bytes < U128_MOD →
          (r.add_packets packets bytes TrafficDirection.Outgoing).outgoing_bytes =
              r.outgoing_bytes + bytes)) ∧
    (∀ (t0 : Nat) (ops : List TrafficOp),
        opsPackets ops < U128_MOD → opsBytes ops < U128_MOD →
        (applyOps (DataInfo.mkDefault t0) ops).tot_packets = opsPackets ops ∧
        (applyOps (DataInfo.mkDefault t0) ops).tot_bytes = opsBytes ops) := by
  refine ⟨?_, ?_, ?_, ?_, ?_⟩
  · intro r bytes now
    simp only [add_packet_incoming]
    exact ⟨trivial, trivial, fun h => u128add_exact _ _ h, fun h => u128add_exact _ _ h⟩
  · intro r bytes now
    simp only [add_packet_outgoing]
    exact ⟨trivial, trivial, fun h => u128add_exact _ _ h, fun h => u128add_exact _ _ h⟩
  · intro r packets bytes
    simp only [add_packets_incoming]
    exact ⟨trivial, trivial, fun h => u128add_exact _ _ h, fun h => u128add_exact _ _ h⟩
  · intro r packets bytes
    simp only [add_packets_outgoing]
    exact ⟨trivial, trivial, fun h => u128add_exact _ _ h, fun h => u128add_exact _ _ h⟩
  · intro t0 ops h1 h2
    have hz1 : (DataInfo.mkDefault t0).incoming_packets = 0 := rfl
    have hz2 : (DataInfo.mkDefault t0).outgoing_packets = 0 := rfl
    have hz3 : (DataInfo.mkDefault t0).incoming_bytes = 0 := rfl
    have hz4 : (DataInfo.mkDefault t0).outgoing_bytes = 0 := rfl
    have h := applyOps_counters ops (DataInfo.mkDefault t0) (by omega) (by omega)
    constructor
    · have hm : (applyOps (DataInfo.mkDefault t0) ops).incoming_packets +
          (applyOps (DataInfo.mkDefault t0) ops).outgoing_packets < U128_MOD := by
        omega
      simp only [DataInfo.tot_packets]
      rw [u128add_exact _ _ hm]
      omega
    · have hm : (applyOps (DataInfo.mkDefault t0) ops).incoming_bytes +
          (applyOps (DataInfo.mkDefault t0) ops).outgoing_bytes < U128_MOD := by
        omega
      simp only [DataInfo.tot_bytes]
      rw [u128add_exact _ _ hm]
      omega

/-- C5 witness: a single packet of 5 incoming bytes followed by a batch
of 3 packets and 100 outgoing bytes, starting from a zeroed record. -/
theorem C5_exact_counters_witness :
    (applyOps (DataInfo.mkDefault 0)
        [TrafficOp.single 5 TrafficDirection.Incoming 1,
         TrafficOp.batch 3 100 TrafficDirection.Outgoing]).tot_packets = 4 ∧
    (applyOps (DataInfo.mkDefault 0)
        [TrafficOp.single 5 TrafficDirection.Incoming 1,
         TrafficOp.batch 3 100 TrafficDirection.Outgoing]).tot_bytes = 105 :=
  C5_exact_counters.2.2.2.2 0
    [TrafficOp.single 5 TrafficDirection.Incoming 1,
     TrafficOp.batch 3 100 TrafficDirection.Outgoing] (by decide) (by decide)

/- ### Claim C6 -/

set_option maxRecDepth 4000 in
/-- C6: `new_with_first_packet` puts 1 packet and `bytes` bytes on the
side given by the direction and zeroes on the opposite side; the record
built by `new_with_first_packet 100 Outgoing` followed by
`add_packet 50 Incoming` holds 1 outgoing packet of 100 bytes, 1 incoming
packet of 50 bytes, 2 total packets and 150 total bytes. -/
theorem C6_new_with_first_packet :
    (∀ (bytes now : Nat),
        DataInfo.new_with_first_packet bytes TrafficDirection.Outgoing now =
          ⟨0, 1, 0, bytes, now⟩ ∧
        DataInfo.new_with_first_packet bytes TrafficDirection.Incoming now =
          ⟨1, 0, bytes, 0, now⟩) ∧
    ∀ (t0 t1 : Nat),
      ((DataInfo.new_with_first_packet 100 TrafficDirection.Outgoing
          t0).add_packet 50 TrafficDirection.Incoming t1).outgoing_packets = 1 ∧
      ((DataInfo.new_with_first_packet 100 TrafficDirection.Outgoing
          t0).add_packet 50 TrafficDirection.Incoming t1).outgoing_bytes = 100 ∧
      ((DataInfo.new_with_first_packet 100 TrafficDirection.Outgoing
          t0).add_packet 50 TrafficDirection.Incoming t1).incoming_packets = 1 ∧
      ((DataInfo.new_with_first_packet 100 TrafficDirection.Outgoing
          t0).add_packet 50 TrafficDirection.Incoming t1).incoming_bytes = 50 ∧
      ((DataInfo.new_with_first_packet 100 TrafficDirection.Outgoing
          t0).add_packet 50 TrafficDirection.Incoming t1).tot_packets = 2 ∧
      ((DataInfo.new_with_first_packet 100 TrafficDirection.Outgoing
          t0).add_packet 50 TrafficDirection.Incoming t1).tot_bytes = 150 := by
  constructor
  · intro bytes now
    exact ⟨rfl, rfl⟩
  · intro t0 t1
    exact ⟨rfl, rfl, rfl, rfl, rfl, rfl⟩

/- ### Claim C7 -/

/-- C7 counterexample: with the incoming byte counter at `2 ^ 128 - 1`,
one more `add_packet` wraps the counter around to `0`, strictly below its
previous value, so the counters are not monotonically non-decreasing over
the whole `u128` range. -/
theorem C7_counterexample :
    ((⟨0, 0, U128_MOD - 1, 0, 0⟩ : DataInfo).add_packet 1
        TrafficDirection.Incoming 3).incoming_bytes <
      (⟨0, 0, U128_MOD - 1, 0, 0⟩ : DataInfo).incoming_bytes := by
  decide

/-- C7 (amended): provided every incremented counter stays below
`2 ^ 128`, each of the four counters after `add_packet`, `add_packets` or
`refresh` is at least its value before the operation. -/
theorem C7_monotone_counters (r s : DataInfo) (p b now : Nat)
    (dir : TrafficDirection)
    (hp1 : r.incoming_packets + p + 1 < U128_MOD)
    (hp2 : r.outgoing_packets + p + 1 < U128_MOD)
    (hb1 : r.incoming_bytes + b < U128_MOD)
    (hb2 : r.outgoing_bytes + b < U128_MOD)
    (hr1 : r.incoming_packets + s.incoming_packets < U128_MOD)
    (hr2 : r.outgoing_packets + s.outgoing_packets < U128_MOD)
    (hr3 : r.incoming_bytes + s.incoming_bytes < U128_MOD)
    (hr4 : r.outgoing_bytes + s.outgoing_bytes < U128_MOD) :
    (r.incoming_packets ≤ (r.add_packet b dir now).incoming_packets ∧
     r.outgoing_packets ≤ (r.add_packet b dir now).outgoing_packets ∧
     r.incoming_bytes ≤ (r.add_packet b dir now).incoming_bytes ∧
     r.outgoing_bytes ≤ (r.add_packet b dir now).outgoing_bytes) ∧
    (r.incoming_packets ≤ (r.add_packets p b dir).incoming_packets ∧
     r.outgoing_packets ≤ (r.add_packets p b dir).outgoing_packets ∧
     r.incoming_bytes ≤ (r.add_packets p b dir).incoming_bytes ∧
     r.outgoing_bytes ≤ (r.add_packets p b dir).outgoing_bytes) ∧
    (r.incoming_packets ≤ (r.refresh s).incoming_packets ∧
     r.outgoing_packets ≤ (r.refresh s).outgoing_packets ∧
     r.incoming_bytes ≤ (r.refresh s).incoming_bytes ∧
     r.outgoing_bytes ≤ (r.refresh s).outgoing_bytes) := by
  cases dir
  · simp only [add_packet_incoming, add_packets_incoming, DataInfo.refresh]
    refine ⟨⟨?_, ?_, ?_, ?_⟩, ⟨?_, ?_, ?_, ?_⟩, ⟨?_, ?_, ?_, ?_⟩⟩ <;>
      first
        | omega
        | (rw [u128add_exact _ _ (by omega)]; omega)
  · simp only [add_packet_outgoing, add_packets_outgoing, DataInfo.refresh]
    refine ⟨⟨?_, ?_, ?_, ?_⟩, ⟨?_, ?_, ?_, ?_⟩, ⟨?_, ?_, ?_, ?_⟩⟩ <;>
      first
        | omega
        | (rw [u128add_exact _ _ (by omega)]; omega)

/-- C7 witness: monotonicity applied at small concrete records. -/
theorem C7_monotone_counters_witness :
    (⟨1, 2, 3, 4, 0⟩ : DataInfo).incoming_packets ≤
      ((⟨1, 2, 3, 4, 0⟩ : DataInfo).add_packet 5
          TrafficDirection.Incoming 9).incoming_packets := by
  have h := C7_monotone_counters ⟨1, 2, 3, 4, 0⟩ ⟨6, 7, 8, 9, 1⟩ 11 5 9
    TrafficDirection.Incoming (by decide) (by decide) (by decide) (by decide)
    (by decide) (by decide) (by decide) (by decide)
  exact h.1.1

/- ### Claim C8 -/

/-- C8 counterexample: at the extremes of the `u128` range a counter
addition does wrap around: refreshing a record whose outgoing packet
counter is `2 ^ 128 - 1` with one holding 2 outgoing packets yields 1,
not the mathematical sum. -/
theorem C8_counterexample :
    (DataInfo.refresh ⟨0, U128_MOD - 1, 0, 0, 0⟩
        ⟨0, 2, 0, 0, 1⟩).outgoing_packets ≠ (U128_MOD - 1) + 2 := by
  decide

lemma U128_MOD_one_lt : 1 < U128_MOD := by
  norm_num [U128_MOD]

/-- C8 (amended): every operation is a total function on records within
the `u128` range and keeps all counters within that range, and counter
additions produce the exact mathematical sum as long as it is below
`2 ^ 128` (they wrap modulo `2 ^ 128` only beyond it). -/
theorem C8_total_within_range (r s : DataInfo) (p b now t0 : Nat)
    (dir : TrafficDirection) (hr : r.valid) (hs : s.valid)
    (hb : b < U128_MOD) :
    (r.add_packet b dir now).valid ∧
    (r.add_packets p b dir).valid ∧
    (r.refresh s).valid ∧
    (DataInfo.new_with_first_packet b dir t0).valid ∧
    (DataInfo.mkDefault t0).valid ∧
    (∀ x y : Nat, x + y < U128_MOD → u128add x y = x + y) := by
  obtain ⟨hr1, hr2, hr3, hr4⟩ := hr
  obtain ⟨hs1, hs2, hs3, hs4⟩ := hs
  refine ⟨?_, ?_, ?_, ?_, ?_, fun x y h => u128add_exact x y h⟩
  · cases dir
    · exact ⟨u128add_lt _ _, hr2, u128add_lt _ _, hr4⟩
    · exact ⟨hr1, u128add_lt _ _, hr3, u128add_lt _ _⟩
  · cases dir
    · exact ⟨u128add_lt _ _, hr2, u128add_lt _ _, hr4⟩
    · exact ⟨hr1, u128add_lt _ _, hr3, u128add_lt _ _⟩
  · exact ⟨u128add_lt _ _, u128add_lt _ _, u128add_lt _ _, u128add_lt _ _⟩
  · cases dir
    · exact ⟨U128_MOD_one_lt, U128_MOD_pos, hb, U128_MOD_pos⟩
    · exact ⟨U128_MOD_pos, U128_MOD_one_lt, U128_MOD_pos, hb⟩
  · exact ⟨U128_MOD_pos, U128_MOD_pos, U128_MOD_pos, U128_MOD_pos⟩

/-- C8 witness: closure within the `u128` range at concrete records. -/
theorem C8_total_within_range_witness :
    ((DataInfo.mkDefault 0).add_packet 3 TrafficDirection.Incoming 4).valid ∧
    (DataInfo.refresh (DataInfo.mkDefault 0) (DataInfo.mkDefault 1)).valid := by
  have h := C8_total_within_range (DataInfo.mkDefault 0) (DataInfo.mkDefault 1)
    2 3 4 5 TrafficDirection.Incoming
    ⟨by decide, by decide, by decide, by decide⟩
    ⟨by decide, by decide, by decide, by decide⟩ (by decide)
  exact ⟨h.1, h.2.2.1⟩

/- ### Claim C9 -/

/-- C9 counterexample: `tot_packets` is a `u128` addition, so with the
incoming packet counter at `2 ^ 128 - 1` and one outgoing packet it wraps
to `0` instead of the mathematical sum of the two counters. -/
theorem C9_counterexample :
    (⟨U128_MOD - 1, 1, 0, 0, 0⟩ : DataInfo).tot_packets ≠
      (U128_MOD - 1) + 1 := by
  decide

/-- C9 (amended): provided the sums stay below `2 ^ 128`, `tot_packets`
is the sum of the two packet counters and `tot_bytes` the sum of the two
byte counters (computed on demand), and `tot_data` returns `tot_packets`
for the packets chart kind and `tot_bytes` for the bytes chart kind. -/
theorem C9_totals (d : DataInfo)
    (h1 : d.incoming_packets + d.outgoing_packets < U128_MOD)
    (h2 : d.incoming_bytes + d.outgoing_bytes < U128_MOD) :
    d.tot_packets = d.incoming_packets + d.outgoing_packets ∧
    d.tot_bytes = d.incoming_bytes + d.outgoing_bytes ∧
    d.tot_data ChartType.Packets = d.tot_packets ∧
    d.tot_data ChartType.Bytes = d.tot_bytes :=
  ⟨u128add_exact _ _ h1, u128add_exact _ _ h2, rfl, rfl⟩

/-- C9 witness: evaluated at a small concrete record. -/
theorem C9_totals_witness :
    (⟨1, 2, 3, 4, 5⟩ : DataInfo).tot_packets = 3 ∧
    (⟨1, 2, 3, 4, 5⟩ : DataInfo).tot_bytes = 7 := by
  have h := C9_totals ⟨1, 2, 3, 4, 5⟩ (by decide) (by decide)
  exact ⟨h.1, h.2.1⟩

/- ### Claim C10 -/

/-- C10: under Ascending or Descending, `compare` depends only on the two
selected total magnitudes (so equal selected totals give `eq` regardless
of directional split or timestamps), and under Neutral it depends only on
the two `final_instant` values and is the same for both chart kinds. -/
theorem C10_compare_key_extensional :
    (∀ (o : SortType) (c : ChartType) (a b a2 b2 : DataInfo),
        (o = SortType.Ascending ∨ o = SortType.Descending) →
        a.tot_data c = a2.tot_data c → b.tot_data c = b2.tot_data c →
        DataInfo.compare a b o c = DataInfo.compare a2 b2 o c) ∧
    (∀ (o : SortType) (c : ChartType) (a b : DataInfo),
        (o = SortType.Ascending ∨ o = SortType.Descending) →
        a.tot_data c = b.tot_data c →
        DataInfo.compare a b o c = Ordering.eq) ∧
    (∀ (c c2 : ChartType) (a b a2 b2 : DataInfo),
        a.final_instant = a2.final_instant →
        b.final_instant = b2.final_instant →
        DataInfo.compare a b SortType.Neutral c =
          DataInfo.compare a2 b2 SortType.Neutral c2) := by
  refine ⟨?_, ?_, ?_⟩
  · intro o c a b a2 b2 ho ha hb
    rcases ho with h | h <;> subst h
    · have e1 : DataInfo.compare a b SortType.Ascending c =
          cmpNat (a.tot_data c) (b.tot_data c) :=
        compare_eq a b SortType.Ascending c
      have e2 : DataInfo.compare a2 b2 SortType.Ascending c =
          cmpNat (a2.tot_data c) (b2.tot_data c) :=
        compare_eq a2 b2 SortType.Ascending c
      rw [e1, e2, ha, hb]
    · have e1 : DataInfo.compare a b SortType.Descending c =
          cmpNat (b.tot_data c) (a.tot_data c) :=
        compare_eq a b SortType.Descending c
      have e2 : DataInfo.compare a2 b2 SortType.Descending c =
          cmpNat (b2.tot_data c) (a2.tot_data c) :=
        compare_eq a2 b2 SortType.Descending c
      rw [e1, e2, ha, hb]
  · intro o c a b ho h
    rcases ho with h1 | h1 <;> subst h1
    · have e : DataInfo.compare a b SortType.Ascending c =
          cmpNat (a.tot_data c) (b.tot_data c) :=
        compare_eq a b SortType.Ascending c
      rw [e, h]
      exact cmpNat_self _
    · have e : DataInfo.compare a b SortType.Descending c =
          cmpNat (b.tot_data c) (a.tot_data c) :=
        compare_eq a b SortType.Descending c
      rw [e, h]
      exact cmpNat_self _
  · intro c c2 a b a2 b2 ha hb
    have e1 : DataInfo.compare a b SortType.Neutral c =
        cmpNat b.final_instant a.final_instant :=
      compare_eq a b SortType.Neutral c
    have e2 : DataInfo.compare a2 b2 SortType.Neutral c2 =
        cmpNat b2.final_instant a2.final_instant :=
      compare_eq a2 b2 SortType.Neutral c2
    rw [e1, e2, ha, hb]

/-- C10 witness: two records with different splits and timestamps but the
same 150 total bytes compare `eq` under Ascending/Bytes. -/
theorem C10_compare_key_extensional_witness :
    DataInfo.compare ⟨0, 0, 100, 50, 1⟩ ⟨0, 0, 30, 120, 9⟩
        SortType.Ascending ChartType.Bytes = Ordering.eq :=
  C10_compare_key_extensional.2.1 SortType.Ascending ChartType.Bytes
    ⟨0, 0, 100, 50, 1⟩ ⟨0, 0, 30, 120, 9⟩ (Or.inl rfl) (by decide)

end Sniffnet
